import Mathlib

/-!
# get-gpu-temperature: a shallow embedding of `entry_point.c`

The program queries two vendor interfaces (NvAPI and ADL) and reports, for each
vendor, the hottest sensor reading.  The vendor libraries are foreign code, so
every vendor call is modelled by its *outcome*, supplied as data (`NvVendor`,
`AdlVendor`).  The program's own state is explicit:

* the bump allocator's globals (`Arena`: `global_memory`, `global_memory_offset`),
* the bytes of the block `global_memory` points to (`heap`),
* the text written by `printf` (`out`, one entry per `printf` call),
* the sequence of vendor / loader calls made so far (`calls`).

C `int` values are `Int`; the only `int` arithmetic that can overflow is the
offset bump of `allocate_memory`, which wraps explicitly (`wrap_int`).

The AMD entry points are looked up by name at run time and called through the
pointers obtained, without a check.  Whether each lookup succeeded is part of
`AdlVendor`; a call through a null pointer ends the process, so
`get_temperature_for_amd` and `main` return an `Option`, `none` meaning that the
process ended in such a call.
-/

namespace GpuTemperature

/-! ## Constants of the vendor headers -/

/-- Modelled from the spec: `nvapi_headers/nvapi.h` is not among the sources;
`NVAPI_OK` is the success status every NvAPI call is compared against. -/
def NVAPI_OK : Int := 0

/-- Modelled from the spec: `adl_headers/adl_sdk.h` is not among the sources;
`ADL_OK` is the success status every ADL call is compared against. -/
def ADL_OK : Int := 0

/-- Modelled from the spec: `NvAPI_ShortString` is declared in the absent
`nvapi.h`; it is a `char` array holding a message of at most 63 characters and
its terminator, so `sizeof(NvAPI_ShortString)` is 64. -/
def sizeof_NvAPI_ShortString : Int := 64

/-- The terminating byte of a C string. -/
def NUL : Char := Char.ofNat 0

/-! ## The bump allocator -/

/-- The two globals of the allocator: `global_memory` (an address) and
`global_memory_offset` (an `int`). -/
structure Arena where
  global_memory : Int
  global_memory_offset : Int
deriving DecidableEq, Repr

/-- Two's-complement wrap of a value to the range of a 32-bit `int`. -/
def wrap_int (x : Int) : Int := (x + 2147483648) % 4294967296 - 2147483648

/-- The source's `void* allocate_memory(int size)`: returns `global_memory + global_memory_offset`
and performs `global_memory_offset += size`. -/
def allocate_memory (size : Int) (a : Arena) : Int × Arena :=
  let data := a.global_memory + a.global_memory_offset
  (data, { a with global_memory_offset := wrap_int (a.global_memory_offset + size) })

/-- One served request: the pointer returned, the size asked for, and the value
of `global_memory_offset` after the call. -/
structure Region where
  data : Int
  size : Int
  offset_after : Int
deriving DecidableEq, Repr

/-- A sequence of calls `allocate_memory(size)` within one arena lifetime, in
order; collects what each call returned. -/
def allocate_sequence : List Int → Arena → List Region × Arena
  | [], a => ([], a)
  | size :: rest, a =>
    let r := allocate_memory size a
    let tail := allocate_sequence rest r.2
    (⟨r.1, size, r.2.global_memory_offset⟩ :: tail.1, tail.2)

/-- The regions `[data, data + size)` of two requests share no address. -/
def Region.disjoint (r s : Region) : Prop :=
  ∀ x : Int, ¬ ((r.data ≤ x ∧ x < r.data + r.size) ∧ (s.data ≤ x ∧ x < s.data + s.size))

/-! ## Program state, vendor calls, output -/

/-- The entry points the AMD pipeline resolves by name. -/
inductive AdlProc where
  | ADL2_Main_Control_Create
  | ADL2_Main_Control_Destroy
  | ADL2_Main_Control_GetProcAddress
  | ADL2_Overdrive5_Temperature_Get
  | ADL2_Adapter_AdapterInfoX3_Get
deriving DecidableEq, Repr

/-- Every call the program makes into a vendor library or the module loader. -/
inductive Call where
  | NvAPI_Initialize
  | NvAPI_GetErrorMessage (status : Int)
  | NvAPI_EnumPhysicalGPUs
  | NvAPI_GPU_GetThermalSettings (gpu_index : Nat)
  | NvAPI_Unload
  | LoadLibraryA
  | GetProcAddress (name : AdlProc)
  | ADL2_Main_Control_Create
  | ADL2_Main_Control_GetProcAddress (name : AdlProc)
  | ADL2_Adapter_AdapterInfoX3_Get
  | ADL2_Overdrive5_Temperature_Get (adapter_index : Int)
  | ADL2_Main_Control_Destroy (context : Int)
  | FreeLibrary
deriving DecidableEq, Repr

/-- The whole observable state of a run. -/
structure World where
  arena : Arena
  heap : List Char
  out : List (List Char)
  calls : List Call
deriving DecidableEq, Repr

/-- Record a vendor call. -/
def World.call (w : World) (c : Call) : World := { w with calls := w.calls ++ [c] }

/-- One `printf`: append its text to the output. -/
def World.printf (w : World) (text : List Char) : World := { w with out := w.out ++ [text] }

/-- Store `bytes` at index `i` of the block and onwards; bytes that would land
outside the block are dropped. -/
def write_bytes : List Char → Nat → List Char → List Char
  | heap, _, [] => heap
  | heap, i, b :: bs => write_bytes (heap.set i b) (i + 1) bs

/-- Store `bytes` at address `p`, for a block starting at address `base`. -/
def store (heap : List Char) (base p : Int) (bytes : List Char) : List Char :=
  if p < base then heap else write_bytes heap (p - base).toNat bytes

/-- The C `strlen`: the number of bytes before the first `NUL`. -/
def strlen (s : List Char) : Nat := (s.takeWhile (fun c => c != NUL)).length

/-- The C string a `char*` with value `p` denotes: the bytes from `p` up to the
first `NUL` (reading stops at the end of the block at the latest). -/
def c_string (heap : List Char) (base p : Int) : List Char :=
  if p < base then [] else (heap.drop (p - base).toNat).takeWhile (fun c => c != NUL)

/-- The text `printf("%x", status)` produces for an `int`: the value read as an
unsigned 32-bit number, in lowercase hexadecimal. -/
def format_x (status : Int) : List Char := Nat.toDigits 16 (status % 4294967296).toNat

/-- Outcome of `NvAPI_GPU_GetThermalSettings` for one adapter: the status, and,
when it is `NVAPI_OK`, `info.sensor[0 .. info.count).currentTemp`. -/
structure NvThermalSettings where
  status : Int
  sensors : List Int
deriving DecidableEq, Repr

/-- Outcomes of the NvAPI calls of one run. -/
structure NvVendor where
  /-- Status returned by `NvAPI_Initialize`. -/
  init_status : Int
  /-- Status returned by `NvAPI_EnumPhysicalGPUs`. -/
  enum_status : Int
  /-- One entry per enumerated adapter (`num_gpus` is the length). -/
  gpus : List NvThermalSettings
  /-- Text `NvAPI_GetErrorMessage` writes for a status (empty: no message). -/
  error_message : Int → List Char

/-- The 64-byte local `status_string`: zeroed by `= {}`, then filled by
`NvAPI_GetErrorMessage` with the vendor's text. -/
def status_string_buffer (message : List Char) : List Char :=
  (message ++ List.replicate sizeof_NvAPI_ShortString.toNat NUL).take sizeof_NvAPI_ShortString.toNat

/-- The source's `char* get_nvapi_status_string(NvAPI_Status status)`: asks the vendor
for the message of `status`, takes 64 bytes from the arena, and stores there the
"0x%x" rendering of the status when the message is empty, else the bytes of the
message (`memcpy` of `strlen` bytes). -/
def get_nvapi_status_string (v : NvVendor) (status : Int) (w : World) : Int × World :=
  let status_string := status_string_buffer (v.error_message status)
  let w := w.call (.NvAPI_GetErrorMessage status)
  let r := allocate_memory sizeof_NvAPI_ShortString w.arena
  let result := r.1
  let result_size := strlen status_string
  let bytes :=
    if result_size = 0 then '0' :: 'x' :: format_x status ++ [NUL]
    else status_string.take result_size
  (result, { w with arena := r.2, heap := store w.heap w.arena.global_memory result bytes })

/-- The inner loop of `get_temperature_for_nvidia` over the sensors of one adapter. -/
def nvidia_sensor_loop : List Int → Int → Int
  | [], max_temperature => max_temperature
  | temperature :: rest, max_temperature =>
    nvidia_sensor_loop rest (if temperature > max_temperature then temperature else max_temperature)

/-- The outer loop of `get_temperature_for_nvidia` over the enumerated adapters. -/
def nvidia_gpu_loop : List NvThermalSettings → Nat → Int → World → Int × World
  | [], _, max_temperature, w => (max_temperature, w)
  | info :: rest, gpu_index, max_temperature, w =>
    let w := w.call (.NvAPI_GPU_GetThermalSettings gpu_index)
    if info.status ≠ NVAPI_OK then nvidia_gpu_loop rest (gpu_index + 1) max_temperature w
    else nvidia_gpu_loop rest (gpu_index + 1) (nvidia_sensor_loop info.sensors max_temperature) w

/-- The source's `int get_temperature_for_nvidia()`; returns the value and the state
it leaves. -/
def get_temperature_for_nvidia (v : NvVendor) (w : World) : Int × World :=
  let max_temperature : Int := 0
  let w := w.call .NvAPI_Initialize
  if v.init_status ≠ NVAPI_OK then
    let s := get_nvapi_status_string v v.init_status w
    let text := c_string s.2.heap s.2.arena.global_memory s.1
    (0, s.2.printf ("\nFailed to initialise NvAPI with error ".toList ++ text ++ ".".toList))
  else
    let w := w.call .NvAPI_EnumPhysicalGPUs
    if v.enum_status ≠ NVAPI_OK then
      let s := get_nvapi_status_string v v.enum_status w
      let text := c_string s.2.heap s.2.arena.global_memory s.1
      let w := s.2.printf ("\nFailed to enumerate NVIDIA GPUs with error ".toList ++ text ++ ".".toList)
      (max_temperature, w.call .NvAPI_Unload)
    else
      let r := nvidia_gpu_loop v.gpus 0 max_temperature w
      (r.1, r.2.call .NvAPI_Unload)

/-! ## The AMD pipeline -/

/-- One entry of the adapter array and the outcome of
`ADL2_Overdrive5_Temperature_Get` for it. -/
structure AdlAdapter where
  iAdapterIndex : Int
  status : Int
  /-- Value of `adl_temperature.iTemperature` after a successful call, in millidegrees. -/
  iTemperature : Int
deriving DecidableEq, Repr

/-- Outcomes of the loader and ADL calls of one run. -/
structure AdlVendor where
  /-- Whether `LoadLibraryA` returned a module handle. -/
  library_loaded : Bool
  /-- Whether the lookup of an entry point returned a pointer that is not null:
  `GetProcAddress` for `ADL2_Main_Control_Create`, `ADL2_Main_Control_Destroy` and
  `ADL2_Main_Control_GetProcAddress`, and `ADL2_Main_Control_GetProcAddress` for
  `ADL2_Overdrive5_Temperature_Get` and `ADL2_Adapter_AdapterInfoX3_Get`. -/
  resolves : AdlProc → Bool
  /-- Status returned by `ADL2_Main_Control_Create`. -/
  create_status : Int
  /-- Value of `adl_context` after `ADL2_Main_Control_Create` (0 if left untouched). -/
  context : Int
  /-- Sizes the vendor requests through the `allocate_memory` callback during creation. -/
  create_allocations : List Int
  /-- Status returned by `ADL2_Adapter_AdapterInfoX3_Get`. -/
  enum_status : Int
  /-- Sizes the vendor requests through the callback during enumeration. -/
  enum_allocations : List Int
  /-- The adapter array (`num_adapters` is the length). -/
  adapters : List AdlAdapter

/-- The vendor calling the `allocate_memory` callback it was handed, once per size.
What the vendor stores in the regions it obtains is not part of the state: the
program reads it only through the outcomes above. -/
def vendor_allocations (sizes : List Int) (w : World) : World :=
  { w with arena := (allocate_sequence sizes w.arena).2 }

/-- The loop of `get_temperature_for_amd` over the adapter array.  The pointer
`ADL2_Overdrive5_Temperature_Get` is called without a check: when it is null
(`temperature_get_resolved = false`) the first iteration ends the process, which is
the result `none`. -/
def amd_adapter_loop : List AdlAdapter → Bool → Int → Int → World → Option (Int × World)
  | [], _, _, max_temperature, w => some (max_temperature, w)
  | adapter :: rest, temperature_get_resolved, adl_context, max_temperature, w =>
    if !temperature_get_resolved then none
    else
      let adapter_index := adapter.iAdapterIndex
      let w := w.call (.ADL2_Overdrive5_Temperature_Get adapter_index)
      if adapter.status ≠ ADL_OK then
        amd_adapter_loop rest temperature_get_resolved adl_context max_temperature w
      else
        let temperature := Int.tdiv adapter.iTemperature 1000
        amd_adapter_loop rest temperature_get_resolved adl_context
          (if temperature > max_temperature then temperature else max_temperature) w

/-- The block after the label `adl_deinit`: the pointer `ADL2_Main_Control_Destroy`
is called without a check (`none` when it is null), then `FreeLibrary`. -/
def adl_deinit (destroy_resolved : Bool) (adl_context : Int) (w : World) : Option World :=
  if !destroy_resolved then none
  else some ((w.call (.ADL2_Main_Control_Destroy adl_context)).call .FreeLibrary)

/-- The source's `int get_temperature_for_amd()`; returns the value and the state it
leaves.  The entry points are looked up by name and called through the pointers
obtained, none of which is checked: a call through a null pointer ends the process,
and the result is `none`. -/
def get_temperature_for_amd (v : AdlVendor) (w : World) : Option (Int × World) :=
  let max_temperature : Int := 0
  let w := w.call .LoadLibraryA
  if !v.library_loaded then some (0, w.printf "\nFailed to load ADL DLL.".toList)
  else
    let w := w.call (.GetProcAddress .ADL2_Main_Control_Create)
    let w := w.call (.GetProcAddress .ADL2_Main_Control_Destroy)
    let w := w.call (.GetProcAddress .ADL2_Main_Control_GetProcAddress)
    if !v.resolves .ADL2_Main_Control_Create then none
    else
      let w := vendor_allocations v.create_allocations (w.call .ADL2_Main_Control_Create)
      let adl_context := v.context
      if v.create_status ≠ ADL_OK then
        let w := w.printf ("\nFailed to make an ADL context with status 0x".toList
          ++ format_x v.create_status ++ ".".toList)
        (adl_deinit (v.resolves .ADL2_Main_Control_Destroy) adl_context w).map
          (fun w => (max_temperature, w))
      else if !v.resolves .ADL2_Main_Control_GetProcAddress then none
      else
        let w := w.call (.ADL2_Main_Control_GetProcAddress .ADL2_Overdrive5_Temperature_Get)
        let w := w.call (.ADL2_Main_Control_GetProcAddress .ADL2_Adapter_AdapterInfoX3_Get)
        if !v.resolves .ADL2_Adapter_AdapterInfoX3_Get then none
        else
          let w := vendor_allocations v.enum_allocations (w.call .ADL2_Adapter_AdapterInfoX3_Get)
          if v.enum_status ≠ ADL_OK then
            let w := w.printf "\n Failed to enumerate AMD GPUs.".toList
            (adl_deinit (v.resolves .ADL2_Main_Control_Destroy) adl_context w).map
              (fun w => (max_temperature, w))
          else
            (amd_adapter_loop v.adapters (v.resolves .ADL2_Overdrive5_Temperature_Get)
                adl_context max_temperature w).bind
              (fun r => (adl_deinit (v.resolves .ADL2_Main_Control_Destroy) adl_context r.2).map
                (fun w => (r.1, w)))

/-! ## The driver -/

/-- The state `main` starts the pipelines in: the arena at the address `malloc`
returned with offset 0, no output, no calls. -/
def initial_world (block_address : Int) (block : List Char) : World :=
  ⟨⟨block_address, 0⟩, block, [], []⟩

/-- The sensor temperatures read successfully in the adapter loop: all sensors
of every adapter whose thermal query returned `NVAPI_OK`, in order. -/
def nvidia_readings (gpus : List NvThermalSettings) : List Int :=
  ((gpus.filter (fun g => g.status = NVAPI_OK)).map (fun g => g.sensors)).flatten

/-- The temperatures read successfully in the AMD adapter loop, in degrees: the
millidegree value divided by 1000, for every adapter whose query returned `ADL_OK`. -/
def amd_readings (adapters : List AdlAdapter) : List Int :=
  (adapters.filter (fun a => a.status = ADL_OK)).map (fun a => Int.tdiv a.iTemperature 1000)

/-- The maximum of a list of readings, and 0 when the list is empty. -/
def maximum_or_zero (l : List Int) : Int := l.max?.getD 0

/-- Division of a millidegree value by 1000 with truncation toward zero, in the
spec's words: the magnitude is divided rounding down and the sign is kept. -/
def truncate_toward_zero (m : Int) : Int :=
  if 0 ≤ m then Int.ofNat (m.natAbs / 1000) else - Int.ofNat (m.natAbs / 1000)

/-! ## Concrete runs -/

/-- A vendor that has no message for any status. -/
def no_message : Int → List Char := fun _ => []

/-- Every entry point lookup succeeds. -/
def all_resolve : AdlProc → Bool := fun _ => true

/-- Every entry point lookup returns null. -/
def none_resolve : AdlProc → Bool := fun _ => false

/-- A start state: an arena at address 4096 whose 256 bytes are all zero. -/
def zeroed_world : World := ⟨⟨4096, 0⟩, List.replicate 256 NUL, [], []⟩

/-- Two adapters with sensor sets {50, 72} and {68}. -/
def nvidia_two_adapters : NvVendor :=
  ⟨NVAPI_OK, NVAPI_OK, [⟨NVAPI_OK, [50, 72]⟩, ⟨NVAPI_OK, [68]⟩], no_message⟩

/-- One adapter whose only sensor reads -5 degrees. -/
def nvidia_below_zero : NvVendor := ⟨NVAPI_OK, NVAPI_OK, [⟨NVAPI_OK, [-5]⟩], no_message⟩

/-- Three adapters; the query of the second fails, the others report 58000 and 61000. -/
def amd_three_adapters : AdlVendor :=
  ⟨true, all_resolve, ADL_OK, 1, [], ADL_OK, [],
    [⟨0, ADL_OK, 58000⟩, ⟨1, -1, 0⟩, ⟨2, ADL_OK, 61000⟩]⟩

/-- One adapter reporting -5000 millidegrees. -/
def amd_below_zero : AdlVendor :=
  ⟨true, all_resolve, ADL_OK, 1, [], ADL_OK, [], [⟨0, ADL_OK, -5000⟩]⟩

/-- A run in which everything succeeds and the single adapter reports `m` millidegrees. -/
def amd_single_adapter (m : Int) : AdlVendor :=
  ⟨true, all_resolve, ADL_OK, 1, [], ADL_OK, [], [⟨0, ADL_OK, m⟩]⟩

/-- The module loads, `ADL2_Main_Control_Create` fails with -1 and leaves `adl_context` at 0. -/
def amd_create_fails : AdlVendor := ⟨true, all_resolve, -1, 0, [], ADL_OK, [], []⟩

/-- A run in which `NvAPI_Initialize` fails with -1. -/
def nvidia_init_fails : NvVendor := ⟨-1, NVAPI_OK, [], no_message⟩

/-- Initialisation succeeds, enumeration fails with -6. -/
def nvidia_enum_fails : NvVendor := ⟨NVAPI_OK, -6, [], no_message⟩

/-- The calls `get_temperature_for_nvidia` makes after a successful `NvAPI_Initialize`
and before `NvAPI_Unload`. -/
def nvidia_calls_while_initialised (v : NvVendor) : List Call :=
  Call.NvAPI_EnumPhysicalGPUs ::
    (if v.enum_status = NVAPI_OK then
      (List.range' 0 v.gpus.length).map Call.NvAPI_GPU_GetThermalSettings
    else [Call.NvAPI_GetErrorMessage v.enum_status])

/-- The requests of a sequence are served without the `int` offset overflowing and
none has a negative size. -/
def requests_fit (sizes : List Int) (a : Arena) : Prop :=
  (∀ s ∈ sizes, 0 ≤ s) ∧ -2147483648 ≤ a.global_memory_offset
    ∧ a.global_memory_offset + sizes.sum ≤ 2147483647

/-- The string `printf("%s", get_nvapi_status_string(status))` prints: the C string
read through the returned pointer, in the state the call leaves. -/
def nvapi_status_text (v : NvVendor) (status : Int) (w : World) : List Char :=
  c_string (get_nvapi_status_string v status w).2.heap
    (get_nvapi_status_string v status w).2.arena.global_memory
    (get_nvapi_status_string v status w).1

/-- A vendor whose message for every status is "NVAPI_ERROR". -/
def nvapi_error_message : Int → List Char := fun _ => "NVAPI_ERROR".toList

/-- A run in which `NvAPI_Initialize` fails with -1, and the vendor has the message "NVAPI_ERROR" for it. -/
def nvidia_init_fails_with_message : NvVendor := ⟨-1, NVAPI_OK, [], nvapi_error_message⟩

/-- A start state whose arena block was not zeroed: 16 bytes 'X', then 112 zero bytes. -/
def stale_world : World :=
  ⟨⟨4096, 0⟩, List.replicate 16 'X' ++ List.replicate 112 NUL, [], []⟩

/-- Initialisation and enumeration succeed; the thermal query of the only adapter fails. -/
def nvidia_query_fails : NvVendor := ⟨NVAPI_OK, NVAPI_OK, [⟨-1, []⟩], no_message⟩

/-- Everything succeeds up to the adapter loop; the temperature query of the only adapter fails. -/
def amd_query_fails : AdlVendor := ⟨true, all_resolve, ADL_OK, 1, [], ADL_OK, [], [⟨0, -1, 0⟩]⟩

/-- The module cannot be loaded. -/
def amd_load_fails : AdlVendor := ⟨false, none_resolve, ADL_OK, 0, [], ADL_OK, [], []⟩

/-- Adapter enumeration fails with the given status after a successful creation. -/
def amd_enum_fails (status : Int) : AdlVendor :=
  ⟨true, all_resolve, ADL_OK, 1, [], status, [], []⟩

/-- No call of `get_temperature_for_amd` goes through a null pointer: the module does
not load, or every entry point that the run reaches was resolved. -/
def AdlVendor.calls_resolve (v : AdlVendor) : Bool :=
  !v.library_loaded ||
    (v.resolves .ADL2_Main_Control_Create && v.resolves .ADL2_Main_Control_Destroy &&
      (v.create_status != ADL_OK ||
        (v.resolves .ADL2_Main_Control_GetProcAddress
          && v.resolves .ADL2_Adapter_AdapterInfoX3_Get &&
          (v.enum_status != ADL_OK || v.adapters.isEmpty
            || v.resolves .ADL2_Overdrive5_Temperature_Get))))

/-- The value `get_temperature_for_amd` returns when it returns: a function of the
vendor outcomes alone. -/
def amd_value (v : AdlVendor) : Int :=
  if v.library_loaded = true ∧ v.create_status = ADL_OK ∧ v.enum_status = ADL_OK then
    (amd_readings v.adapters).foldl max 0
  else 0

/-- The calls one execution of `get_temperature_for_amd` makes, by themselves. -/
def amd_calls (amd : AdlVendor) : List Call :=
  match get_temperature_for_amd amd (initial_world 0 []) with
  | some r => r.2.calls
  | none => []

theorem step_eq_max (t m : Int) : (if t > m then t else m) = max m t := by
  by_cases h : t > m
  · rw [if_pos h, max_eq_right (le_of_lt h)]
  · rw [if_neg h, max_eq_left (not_lt.mp h)]

theorem nvidia_sensor_loop_eq_foldl (l : List Int) (m : Int) :
    nvidia_sensor_loop l m = l.foldl max m := by
  induction l generalizing m with
  | nil => rfl
  | cons t rest ih => simp only [nvidia_sensor_loop, List.foldl_cons, step_eq_max, ih]

theorem nvidia_gpu_loop_result (gpus : List NvThermalSettings) (i : Nat) (m : Int) (w : World) :
    (nvidia_gpu_loop gpus i m w).1 = (nvidia_readings gpus).foldl max m := by
  induction gpus generalizing i m w with
  | nil => rfl
  | cons g rest ih =>
    by_cases h : g.status = NVAPI_OK
    · simp [nvidia_gpu_loop, nvidia_readings, h, ih, nvidia_sensor_loop_eq_foldl]
    · simp [nvidia_gpu_loop, nvidia_readings, h, ih]

theorem foldl_max_max (l : List Int) (a b : Int) :
    l.foldl max (max a b) = max a (l.foldl max b) := by
  induction l generalizing b with
  | nil => rfl
  | cons x rest ih => rw [List.foldl_cons, List.foldl_cons, max_assoc, ih]

theorem foldl_max_zero (l : List Int) : l.foldl max 0 = max 0 (maximum_or_zero l) := by
  cases l with
  | nil => rfl
  | cons x rest =>
    simp only [maximum_or_zero, List.max?, Option.getD_some, List.foldl_cons]
    exact foldl_max_max rest 0 x

theorem le_foldl_max (l : List Int) (m : Int) : m ≤ l.foldl max m := by
  induction l generalizing m with
  | nil => exact le_refl m
  | cons x rest ih => exact le_trans (le_max_left m x) (ih (max m x))

theorem mem_le_foldl_max (l : List Int) (m t : Int) (h : t ∈ l) : t ≤ l.foldl max m := by
  induction l generalizing m with
  | nil => cases h
  | cons x rest ih =>
    rcases List.mem_cons.mp h with rfl | h
    · exact le_trans (le_max_right m t) (le_foldl_max rest (max m t))
    · exact ih (max m x) h

theorem mem_le_maximum_or_zero (l : List Int) (t : Int) (h : t ∈ l) : t ≤ maximum_or_zero l := by
  cases l with
  | nil => cases h
  | cons x rest =>
    simp only [maximum_or_zero, List.max?, Option.getD_some]
    rcases List.mem_cons.mp h with rfl | h
    · exact le_foldl_max rest t
    · exact mem_le_foldl_max rest x t h

theorem foldl_step_eq (l : List Int) (m : Int) :
    l.foldl (fun m t => if t > m then t else m) m = l.foldl max m := by
  induction l generalizing m with
  | nil => rfl
  | cons x rest ih => simp only [List.foldl_cons, step_eq_max, ih]

theorem nvidia_readings_append (g h : List NvThermalSettings) :
    nvidia_readings (g ++ h) = nvidia_readings g ++ nvidia_readings h := by
  simp [nvidia_readings]

theorem amd_readings_append (g h : List AdlAdapter) :
    amd_readings (g ++ h) = amd_readings g ++ amd_readings h := by
  simp [amd_readings]

theorem tdiv_eq_truncate (m : Int) : Int.tdiv m 1000 = truncate_toward_zero m := by
  cases m with
  | ofNat n => simp [truncate_toward_zero, Int.tdiv]
  | negSucc n =>
    have h : ¬ (0 : Int) ≤ Int.negSucc n := by simp
    simp [truncate_toward_zero, Int.tdiv, h, Int.natAbs]

theorem nvidia_result_ok (v : NvVendor) (w : World)
    (hinit : v.init_status = NVAPI_OK) (henum : v.enum_status = NVAPI_OK) :
    (get_temperature_for_nvidia v w).1 = (nvidia_readings v.gpus).foldl max 0 := by
  simp [get_temperature_for_nvidia, hinit, henum, nvidia_gpu_loop_result]

theorem nvidia_result_nonneg (v : NvVendor) (w : World) : 0 ≤ (get_temperature_for_nvidia v w).1 := by
  by_cases hinit : v.init_status = NVAPI_OK
  · by_cases henum : v.enum_status = NVAPI_OK
    · rw [nvidia_result_ok v w hinit henum]; exact le_foldl_max _ 0
    · simp [get_temperature_for_nvidia, hinit, henum]
  · simp [get_temperature_for_nvidia, hinit]

theorem nvidia_gpu_loop_world (l : List NvThermalSettings) (i : Nat) (m : Int) (w : World) :
    (nvidia_gpu_loop l i m w).2 = { w with calls :=
      (w.calls ++ (List.range' i l.length).map Call.NvAPI_GPU_GetThermalSettings) } := by
  induction l generalizing i m w with
  | nil => simp [nvidia_gpu_loop]
  | cons g rest ih =>
    by_cases h : g.status = NVAPI_OK
    · simp [nvidia_gpu_loop, h, ih, World.call, List.range'_succ]
    · simp [nvidia_gpu_loop, h, ih, World.call, List.range'_succ]

theorem amd_adapter_loop_resolved (l : List AdlAdapter) (c m : Int) (w : World) :
    amd_adapter_loop l true c m w = some ((amd_readings l).foldl max m,
      { w with calls :=
        (w.calls ++ l.map (fun a => Call.ADL2_Overdrive5_Temperature_Get a.iAdapterIndex)) }) := by
  induction l generalizing m w with
  | nil => simp [amd_adapter_loop, amd_readings]
  | cons a rest ih =>
    by_cases h : a.status = ADL_OK
    · simp [amd_adapter_loop, amd_readings, h, ih, step_eq_max, World.call]
    · simp [amd_adapter_loop, amd_readings, h, ih, World.call]

theorem amd_adapter_loop_reached (l : List AdlAdapter) (resolved : Bool)
    (h : l ≠ [] → resolved = true) (c m : Int) (w : World) :
    amd_adapter_loop l resolved c m w = some ((amd_readings l).foldl max m,
      { w with calls :=
        (w.calls ++ l.map (fun a => Call.ADL2_Overdrive5_Temperature_Get a.iAdapterIndex)) }) := by
  cases l with
  | nil => simp [amd_adapter_loop, amd_readings]
  | cons a rest =>
    rw [h (List.cons_ne_nil a rest)]
    exact amd_adapter_loop_resolved (a :: rest) c m w

theorem amd_adapter_loop_unresolved (a : AdlAdapter) (l : List AdlAdapter) (c m : Int)
    (w : World) : amd_adapter_loop (a :: l) false c m w = none := by
  simp [amd_adapter_loop]

theorem amd_adapter_loop_ge (l : List AdlAdapter) (resolved : Bool) (c m : Int) (w : World)
    (r : Int × World) (h : amd_adapter_loop l resolved c m w = some r) : m ≤ r.1 := by
  cases l with
  | nil =>
    simp only [amd_adapter_loop, Option.some.injEq] at h
    rw [← h]
  | cons a rest =>
    cases resolved with
    | false => simp [amd_adapter_loop] at h
    | true =>
      rw [amd_adapter_loop_resolved] at h
      rw [← Option.some.inj h]
      exact le_foldl_max _ m

theorem calls_resolve_ok (v : AdlVendor) (hload : v.library_loaded = true)
    (hcreate : v.create_status = ADL_OK) (henum : v.enum_status = ADL_OK)
    (hres : v.calls_resolve = true) :
    v.resolves AdlProc.ADL2_Main_Control_Create = true
    ∧ v.resolves AdlProc.ADL2_Main_Control_Destroy = true
    ∧ v.resolves AdlProc.ADL2_Main_Control_GetProcAddress = true
    ∧ v.resolves AdlProc.ADL2_Adapter_AdapterInfoX3_Get = true
    ∧ (v.adapters ≠ [] → v.resolves AdlProc.ADL2_Overdrive5_Temperature_Get = true) := by
  simp only [AdlVendor.calls_resolve, hload, hcreate, henum, Bool.not_true, Bool.false_or,
    bne_self_eq_false, Bool.and_eq_true, Bool.or_eq_true, List.isEmpty_iff] at hres
  obtain ⟨⟨h1, h2⟩, ⟨h3, h4⟩, h5⟩ := hres
  refine ⟨h1, h2, h3, h4, fun hne => ?_⟩
  rcases h5 with h5 | h5
  · exact absurd h5 hne
  · exact h5

theorem calls_resolve_enum_fails (v : AdlVendor) (hload : v.library_loaded = true)
    (hcreate : v.create_status = ADL_OK) (hres : v.calls_resolve = true) :
    v.resolves AdlProc.ADL2_Main_Control_Create = true
    ∧ v.resolves AdlProc.ADL2_Main_Control_Destroy = true
    ∧ v.resolves AdlProc.ADL2_Main_Control_GetProcAddress = true
    ∧ v.resolves AdlProc.ADL2_Adapter_AdapterInfoX3_Get = true := by
  simp only [AdlVendor.calls_resolve, hload, hcreate, Bool.not_true, Bool.false_or,
    bne_self_eq_false, Bool.and_eq_true] at hres
  exact ⟨hres.1.1, hres.1.2, hres.2.1.1, hres.2.1.2⟩

theorem calls_resolve_create_fails (v : AdlVendor) (hload : v.library_loaded = true)
    (hres : v.calls_resolve = true) :
    v.resolves AdlProc.ADL2_Main_Control_Create = true
    ∧ v.resolves AdlProc.ADL2_Main_Control_Destroy = true := by
  simp only [AdlVendor.calls_resolve, hload, Bool.not_true, Bool.false_or,
    Bool.and_eq_true] at hres
  exact hres.1

theorem amd_run_load_fails (v : AdlVendor) (w : World) (hload : v.library_loaded = false) :
    get_temperature_for_amd v w = some (0,
      { w with calls := (w.calls ++ [Call.LoadLibraryA]),
               out := (w.out ++ ["\nFailed to load ADL DLL.".toList]) }) := by
  simp [get_temperature_for_amd, hload, World.call, World.printf]

theorem amd_run_create_fails (v : AdlVendor) (w : World) (hload : v.library_loaded = true)
    (hcreate : v.create_status ≠ ADL_OK) (hres : v.calls_resolve = true) :
    get_temperature_for_amd v w = some (0,
      { arena := (allocate_sequence v.create_allocations w.arena).2,
        heap := w.heap,
        out := w.out ++ ["\nFailed to make an ADL context with status 0x".toList
          ++ format_x v.create_status ++ ".".toList],
        calls := w.calls ++ [Call.LoadLibraryA,
          Call.GetProcAddress AdlProc.ADL2_Main_Control_Create,
          Call.GetProcAddress AdlProc.ADL2_Main_Control_Destroy,
          Call.GetProcAddress AdlProc.ADL2_Main_Control_GetProcAddress,
          Call.ADL2_Main_Control_Create,
          Call.ADL2_Main_Control_Destroy v.context, Call.FreeLibrary] }) := by
  obtain ⟨h1, h2⟩ := calls_resolve_create_fails v hload hres
  simp [get_temperature_for_amd, hload, hcreate, h1, h2, adl_deinit, World.call, World.printf,
    vendor_allocations]

theorem amd_run_enum_fails (v : AdlVendor) (w : World) (hload : v.library_loaded = true)
    (hcreate : v.create_status = ADL_OK) (henum : v.enum_status ≠ ADL_OK)
    (hres : v.calls_resolve = true) :
    get_temperature_for_amd v w = some (0,
      { arena := (allocate_sequence v.enum_allocations
          (allocate_sequence v.create_allocations w.arena).2).2,
        heap := w.heap,
        out := w.out ++ ["\n Failed to enumerate AMD GPUs.".toList],
        calls := w.calls ++ [Call.LoadLibraryA,
          Call.GetProcAddress AdlProc.ADL2_Main_Control_Create,
          Call.GetProcAddress AdlProc.ADL2_Main_Control_Destroy,
          Call.GetProcAddress AdlProc.ADL2_Main_Control_GetProcAddress,
          Call.ADL2_Main_Control_Create,
          Call.ADL2_Main_Control_GetProcAddress AdlProc.ADL2_Overdrive5_Temperature_Get,
          Call.ADL2_Main_Control_GetProcAddress AdlProc.ADL2_Adapter_AdapterInfoX3_Get,
          Call.ADL2_Adapter_AdapterInfoX3_Get,
          Call.ADL2_Main_Control_Destroy v.context, Call.FreeLibrary] }) := by
  obtain ⟨h1, h2, h3, h4⟩ := calls_resolve_enum_fails v hload hcreate hres
  simp [get_temperature_for_amd, hload, hcreate, henum, h1, h2, h3, h4, adl_deinit, World.call,
    World.printf, vendor_allocations]

theorem amd_run_ok (v : AdlVendor) (w : World) (hload : v.library_loaded = true)
    (hcreate : v.create_status = ADL_OK) (henum : v.enum_status = ADL_OK)
    (hres : v.calls_resolve = true) :
    get_temperature_for_amd v w = some ((amd_readings v.adapters).foldl max 0,
      { arena := (allocate_sequence v.enum_allocations
          (allocate_sequence v.create_allocations w.arena).2).2,
        heap := w.heap,
        out := w.out,
        calls := w.calls ++ [Call.LoadLibraryA,
          Call.GetProcAddress AdlProc.ADL2_Main_Control_Create,
          Call.GetProcAddress AdlProc.ADL2_Main_Control_Destroy,
          Call.GetProcAddress AdlProc.ADL2_Main_Control_GetProcAddress,
          Call.ADL2_Main_Control_Create,
          Call.ADL2_Main_Control_GetProcAddress AdlProc.ADL2_Overdrive5_Temperature_Get,
          Call.ADL2_Main_Control_GetProcAddress AdlProc.ADL2_Adapter_AdapterInfoX3_Get,
          Call.ADL2_Adapter_AdapterInfoX3_Get]
          ++ v.adapters.map (fun a => Call.ADL2_Overdrive5_Temperature_Get a.iAdapterIndex)
          ++ [Call.ADL2_Main_Control_Destroy v.context, Call.FreeLibrary] }) := by
  obtain ⟨h1, h2, h3, h4, h5⟩ := calls_resolve_ok v hload hcreate henum hres
  simp [get_temperature_for_amd, hload, hcreate, henum, h1, h2, h3, h4, adl_deinit, World.call,
    vendor_allocations, amd_adapter_loop_reached v.adapters _ h5]

theorem amd_run_unresolved (v : AdlVendor) (w : World) (hres : v.calls_resolve = false) :
    get_temperature_for_amd v w = none := by
  have hload : v.library_loaded = true := by
    cases h : v.library_loaded with
    | true => rfl
    | false => simp [AdlVendor.calls_resolve, h] at hres
  cases h1 : v.resolves AdlProc.ADL2_Main_Control_Create with
  | false => simp [get_temperature_for_amd, hload, h1]
  | true =>
    cases h2 : v.resolves AdlProc.ADL2_Main_Control_Destroy with
    | false =>
      by_cases hcreate : v.create_status = ADL_OK
      · by_cases henum : v.enum_status = ADL_OK
        · have hbind : ∀ x : Option (Int × World),
              x.bind (fun r => (none : Option World).map (fun u => (r.1, u))) = none := by
            intro x
            cases x <;> rfl
          cases h3 : v.resolves AdlProc.ADL2_Main_Control_GetProcAddress <;>
          cases h4 : v.resolves AdlProc.ADL2_Adapter_AdapterInfoX3_Get <;>
          simp [get_temperature_for_amd, hload, hcreate, henum, h1, h2, h3, h4, adl_deinit,
            hbind]
        · cases h3 : v.resolves AdlProc.ADL2_Main_Control_GetProcAddress <;>
          cases h4 : v.resolves AdlProc.ADL2_Adapter_AdapterInfoX3_Get <;>
          simp [get_temperature_for_amd, hload, hcreate, henum, h1, h2, h3, h4, adl_deinit]
      · simp [get_temperature_for_amd, hload, hcreate, h1, h2, adl_deinit]
    | true =>
      have hcreate : v.create_status = ADL_OK := by
        by_contra hc
        simp [AdlVendor.calls_resolve, hload, h1, h2, hc] at hres
      cases h3 : v.resolves AdlProc.ADL2_Main_Control_GetProcAddress with
      | false => simp [get_temperature_for_amd, hload, hcreate, h1, h3]
      | true =>
        cases h4 : v.resolves AdlProc.ADL2_Adapter_AdapterInfoX3_Get with
        | false => simp [get_temperature_for_amd, hload, hcreate, h1, h3, h4]
        | true =>
          have henum : v.enum_status = ADL_OK := by
            by_contra hc
            simp [AdlVendor.calls_resolve, hload, h1, h2, h3, h4, hcreate, hc] at hres
          simp only [AdlVendor.calls_resolve, hload, h1, h2, h3, h4, hcreate, henum,
            Bool.not_true, Bool.false_or, Bool.true_and, bne_self_eq_false,
            Bool.or_eq_false_iff, List.isEmpty_eq_false] at hres
          obtain ⟨hne, h5⟩ := hres
          obtain ⟨a, rest, hl⟩ := List.exists_cons_of_ne_nil hne
          simp [get_temperature_for_amd, hload, hcreate, henum, h1, h3, h4, h5, hl,
            amd_adapter_loop]

theorem amd_run_returns (v : AdlVendor) (w : World) (hres : v.calls_resolve = true) :
    ∃ u, get_temperature_for_amd v w = some (amd_value v, u)
      ∧ u.calls = w.calls ++ amd_calls v
      ∧ (amd_calls v).head? = some Call.LoadLibraryA := by
  unfold amd_calls
  by_cases hload : v.library_loaded = true
  · by_cases hcreate : v.create_status = ADL_OK
    · by_cases henum : v.enum_status = ADL_OK
      · have hv : amd_value v = (amd_readings v.adapters).foldl max 0 := by
          simp [amd_value, hload, hcreate, henum]
        rw [hv, amd_run_ok v w hload hcreate henum hres,
          amd_run_ok v (initial_world 0 []) hload hcreate henum hres]
        exact ⟨_, rfl, by simp [initial_world], by simp [initial_world]⟩
      · have hv : amd_value v = 0 := by
          simp [amd_value, hload, hcreate, henum]
        rw [hv, amd_run_enum_fails v w hload hcreate henum hres,
          amd_run_enum_fails v (initial_world 0 []) hload hcreate henum hres]
        exact ⟨_, rfl, by simp [initial_world], by simp [initial_world]⟩
    · have hv : amd_value v = 0 := by
        simp [amd_value, hload, hcreate]
      rw [hv, amd_run_create_fails v w hload hcreate hres,
        amd_run_create_fails v (initial_world 0 []) hload hcreate hres]
      exact ⟨_, rfl, by simp [initial_world], by simp [initial_world]⟩
  · have hload0 : v.library_loaded = false := Bool.eq_false_iff.mpr hload
    have hv : amd_value v = 0 := by
      simp [amd_value, hload0]
    rw [hv, amd_run_load_fails v w hload0, amd_run_load_fails v (initial_world 0 []) hload0]
    exact ⟨_, rfl, by simp [initial_world], by simp [initial_world]⟩

theorem amd_value_nonneg (v : AdlVendor) : 0 ≤ amd_value v := by
  unfold amd_value
  split
  · exact le_foldl_max _ 0
  · exact le_refl 0

theorem amd_result_nonneg (v : AdlVendor) (w : World) (r : Int × World)
    (h : get_temperature_for_amd v w = some r) : 0 ≤ r.1 := by
  cases hres : v.calls_resolve with
  | false => rw [amd_run_unresolved v w hres] at h; cases h
  | true =>
    obtain ⟨u, hu, _⟩ := amd_run_returns v w hres
    rw [hu] at h
    rw [← Option.some.inj h]
    exact amd_value_nonneg v

/-- C1 (amended): when `NvAPI_Initialize` and `NvAPI_EnumPhysicalGPUs` succeed, the
value `get_temperature_for_nvidia` returns is the larger of 0 and the maximum over
all sensor temperatures of the adapters whose thermal query succeeded; it is that
maximum itself as soon as one of these temperatures is not negative, and it is 0
when there is no such temperature. -/
theorem nvidia_temperature_is_maximum_with_zero (v : NvVendor) (w : World)
    (hinit : v.init_status = NVAPI_OK) (henum : v.enum_status = NVAPI_OK) :
    (get_temperature_for_nvidia v w).1 = max 0 (maximum_or_zero (nvidia_readings v.gpus))
    ∧ ((∃ t ∈ nvidia_readings v.gpus, 0 ≤ t) →
        (get_temperature_for_nvidia v w).1 = maximum_or_zero (nvidia_readings v.gpus))
    ∧ (nvidia_readings v.gpus = [] → (get_temperature_for_nvidia v w).1 = 0) := by
  have h := (nvidia_result_ok v w hinit henum).trans (foldl_max_zero _)
  refine ⟨h, ?_, ?_⟩
  · rintro ⟨t, ht, h0⟩
    rw [h]
    exact max_eq_right (le_trans h0 (mem_le_maximum_or_zero _ t ht))
  · intro hnil
    rw [h, hnil]
    rfl

/-- C1, the scenario of the spec: two adapters with sensor sets {50, 72} and {68} give 72. -/
theorem nvidia_temperature_is_maximum_with_zero_witness :
    nvidia_two_adapters.init_status = NVAPI_OK ∧ nvidia_two_adapters.enum_status = NVAPI_OK
    ∧ (get_temperature_for_nvidia nvidia_two_adapters zeroed_world).1 = 72 :=
  ⟨rfl, rfl, (nvidia_temperature_is_maximum_with_zero nvidia_two_adapters zeroed_world rfl rfl).1.trans
    (by decide)⟩

/-- C1 as stated fails: a single adapter whose query succeeds with the one sensor
temperature -5 has maximum -5 over its readings, and the pipeline returns 0. -/
theorem nvidia_temperature_below_zero_counterexample :
    nvidia_below_zero.init_status = NVAPI_OK ∧ nvidia_below_zero.enum_status = NVAPI_OK
    ∧ nvidia_readings nvidia_below_zero.gpus = [-5]
    ∧ maximum_or_zero (nvidia_readings nvidia_below_zero.gpus) = -5
    ∧ (get_temperature_for_nvidia nvidia_below_zero zeroed_world).1 = 0
    ∧ (get_temperature_for_nvidia nvidia_below_zero zeroed_world).1
        ≠ maximum_or_zero (nvidia_readings nvidia_below_zero.gpus) := by
  decide

/-- C2 (amended): when the module load, `ADL2_Main_Control_Create` and the adapter
enumeration succeed (the entry points the run calls having been resolved),
`get_temperature_for_amd` returns, and the value it returns is the larger of 0 and the
maximum of (millidegrees / 1000) over the adapters whose temperature query succeeded
(that maximum itself as soon as one quotient is not negative, 0 if no query
succeeded); every adapter of the array is queried, in order, whether or not earlier
queries failed, before the teardown. -/
theorem amd_temperature_is_maximum_with_zero (v : AdlVendor) (w : World)
    (hload : v.library_loaded = true) (hcreate : v.create_status = ADL_OK)
    (henum : v.enum_status = ADL_OK) (hres : v.calls_resolve = true) :
    ∃ r, get_temperature_for_amd v w = some r
    ∧ r.1 = max 0 (maximum_or_zero (amd_readings v.adapters))
    ∧ ((∃ t ∈ amd_readings v.adapters, 0 ≤ t) →
        r.1 = maximum_or_zero (amd_readings v.adapters))
    ∧ (amd_readings v.adapters = [] → r.1 = 0)
    ∧ (∃ before, r.2.calls =
        before ++ v.adapters.map (fun a => Call.ADL2_Overdrive5_Temperature_Get a.iAdapterIndex)
          ++ [Call.ADL2_Main_Control_Destroy v.context, Call.FreeLibrary]) := by
  have h : (amd_readings v.adapters).foldl max 0
      = max 0 (maximum_or_zero (amd_readings v.adapters)) := foldl_max_zero _
  refine ⟨_, amd_run_ok v w hload hcreate henum hres, h, ?_, ?_, ⟨_, rfl⟩⟩
  · rintro ⟨t, ht, h0⟩
    show (amd_readings v.adapters).foldl max 0 = _
    rw [h]
    exact max_eq_right (le_trans h0 (mem_le_maximum_or_zero _ t ht))
  · intro hnil
    show (amd_readings v.adapters).foldl max 0 = _
    rw [hnil]
    rfl

/-- C2, the scenario of the spec: three adapters, the second query fails, the others
report 58000 and 61000 millidegrees; the pipeline returns 61. -/
theorem amd_temperature_is_maximum_with_zero_witness :
    amd_three_adapters.library_loaded = true ∧ amd_three_adapters.create_status = ADL_OK
    ∧ amd_three_adapters.enum_status = ADL_OK ∧ amd_three_adapters.calls_resolve = true
    ∧ (get_temperature_for_amd amd_three_adapters zeroed_world).map Prod.fst = some 61 := by
  obtain ⟨r, hr, hval, _⟩ :=
    amd_temperature_is_maximum_with_zero amd_three_adapters zeroed_world rfl rfl rfl rfl
  refine ⟨rfl, rfl, rfl, rfl, ?_⟩
  rw [hr, Option.map_some', hval]
  decide

/-- C2 as stated fails: a single adapter whose query succeeds with -5000 millidegrees
has maximum -5 over the quotients, and the pipeline returns 0. -/
theorem amd_temperature_below_zero_counterexample :
    amd_below_zero.library_loaded = true ∧ amd_below_zero.create_status = ADL_OK
    ∧ amd_below_zero.enum_status = ADL_OK
    ∧ amd_readings amd_below_zero.adapters = [-5]
    ∧ maximum_or_zero (amd_readings amd_below_zero.adapters) = -5
    ∧ (get_temperature_for_amd amd_below_zero zeroed_world).map Prod.fst = some 0
    ∧ (get_temperature_for_amd amd_below_zero zeroed_world).map Prod.fst
        ≠ some (maximum_or_zero (amd_readings amd_below_zero.adapters)) := by
  decide

/-- C3: the value `get_temperature_for_amd` compares against the running maximum is
the millidegree reading divided by 1000 with truncation toward zero: for every
reading `m` (in particular every 32-bit one), one pass of the adapter loop from the
running maximum `mx` yields the truncated quotient if it exceeds `mx` and `mx`
otherwise; 65499 gives 65 (and -65499 gives -65), and a run with the single adapter
reporting 65499 returns 65, not 66. -/
theorem amd_conversion_truncates_toward_zero (m mx c i : Int) (w : World) :
    (amd_adapter_loop [⟨i, ADL_OK, m⟩] true c mx w).map Prod.fst
        = some (if truncate_toward_zero m > mx then truncate_toward_zero m else mx)
    ∧ (get_temperature_for_amd (amd_single_adapter m) w).map Prod.fst
        = some (max 0 (truncate_toward_zero m))
    ∧ truncate_toward_zero 65499 = 65 ∧ truncate_toward_zero (-65499) = -65
    ∧ (get_temperature_for_amd (amd_single_adapter 65499) w).map Prod.fst = some 65
    ∧ (get_temperature_for_amd (amd_single_adapter 65499) w).map Prod.fst ≠ some 66 := by
  have hsingle : ∀ n : Int, (get_temperature_for_amd (amd_single_adapter n) w).map Prod.fst
      = some (max 0 (truncate_toward_zero n)) := by
    intro n
    rw [amd_run_ok (amd_single_adapter n) w rfl rfl rfl rfl]
    simp [amd_single_adapter, amd_readings, tdiv_eq_truncate]
  have h65 : truncate_toward_zero 65499 = 65 := by decide
  refine ⟨?_, hsingle m, h65, by decide, ?_, ?_⟩
  · simp [amd_adapter_loop, tdiv_eq_truncate]
  · rw [hsingle, h65]; decide
  · rw [hsingle, h65]; decide

/-- C10: in both reduction loops the running maximum starts at 0 and is updated, for
each successfully read temperature in order, by "take the reading if it strictly
exceeds the maximum, else keep the maximum"; one update never lowers the maximum and
changes it only to a reading strictly above it; the maximum after a part of the
adapters is at most the maximum after all of them; hence the returned value is >= 0
for every input and >= every successfully read temperature.  (The AMD pipeline
returns exactly when the entry points it calls were resolved.) -/
theorem running_maximum_invariant (nv : NvVendor) (amd : AdlVendor) (w : World) :
    (nv.init_status = NVAPI_OK → nv.enum_status = NVAPI_OK →
      (get_temperature_for_nvidia nv w).1
        = (nvidia_readings nv.gpus).foldl (fun m t => if t > m then t else m) 0)
    ∧ (amd.library_loaded = true → amd.create_status = ADL_OK → amd.enum_status = ADL_OK →
      amd.calls_resolve = true →
      (get_temperature_for_amd amd w).map Prod.fst
        = some ((amd_readings amd.adapters).foldl (fun m t => if t > m then t else m) 0))
    ∧ (∀ t m : Int, m ≤ nvidia_sensor_loop [t] m
        ∧ (nvidia_sensor_loop [t] m ≠ m → m < t ∧ nvidia_sensor_loop [t] m = t))
    ∧ (∀ (a : AdlAdapter) (c m : Int) (u : World),
        ∃ r, amd_adapter_loop [a] true c m u = some r ∧ m ≤ r.1
          ∧ (r.1 ≠ m → a.status = ADL_OK
              ∧ m < Int.tdiv a.iTemperature 1000
              ∧ r.1 = Int.tdiv a.iTemperature 1000))
    ∧ (∀ (g h : List NvThermalSettings) (i : Nat) (m : Int) (u : World),
        m ≤ (nvidia_gpu_loop g i m u).1
        ∧ (nvidia_gpu_loop g i m u).1 ≤ (nvidia_gpu_loop (g ++ h) i m u).1)
    ∧ (∀ (g h : List AdlAdapter) (c m : Int) (u : World),
        ∃ r s, amd_adapter_loop g true c m u = some r
          ∧ amd_adapter_loop (g ++ h) true c m u = some s
          ∧ m ≤ r.1 ∧ r.1 ≤ s.1)
    ∧ 0 ≤ (get_temperature_for_nvidia nv w).1
    ∧ (∀ r, get_temperature_for_amd amd w = some r → 0 ≤ r.1)
    ∧ ((∃ r, get_temperature_for_amd amd w = some r) ↔ amd.calls_resolve = true)
    ∧ (nv.init_status = NVAPI_OK → nv.enum_status = NVAPI_OK →
        ∀ t ∈ nvidia_readings nv.gpus, t ≤ (get_temperature_for_nvidia nv w).1)
    ∧ (amd.library_loaded = true → amd.create_status = ADL_OK → amd.enum_status = ADL_OK →
        amd.calls_resolve = true →
        ∃ r, get_temperature_for_amd amd w = some r ∧ ∀ t ∈ amd_readings amd.adapters, t ≤ r.1) := by
  refine ⟨?_, ?_, ?_, ?_, ?_, ?_, nvidia_result_nonneg nv w, ?_, ?_, ?_, ?_⟩
  · intro hinit henum
    rw [nvidia_result_ok nv w hinit henum, foldl_step_eq]
  · intro hload hcreate henum hres
    rw [amd_run_ok amd w hload hcreate henum hres, foldl_step_eq]
    rfl
  · intro t m
    by_cases h : t > m
    · have e : nvidia_sensor_loop [t] m = t := by
        simp only [nvidia_sensor_loop, if_pos h]
      rw [e]
      exact ⟨le_of_lt h, fun _ => ⟨h, rfl⟩⟩
    · have e : nvidia_sensor_loop [t] m = m := by
        simp only [nvidia_sensor_loop, if_neg h]
      rw [e]
      exact ⟨le_refl m, fun hne => absurd rfl hne⟩
  · intro a c m u
    refine ⟨_, amd_adapter_loop_resolved [a] c m u, ?_⟩
    show m ≤ (amd_readings [a]).foldl max m ∧ ((amd_readings [a]).foldl max m ≠ m → _)
    by_cases hs : a.status = ADL_OK
    · have e : (amd_readings [a]).foldl max m = max m (Int.tdiv a.iTemperature 1000) := by
        simp [amd_readings, hs]
      rw [e]
      by_cases h : Int.tdiv a.iTemperature 1000 > m
      · rw [max_eq_right (le_of_lt h)]
        exact ⟨le_of_lt h, fun _ => ⟨hs, h, rfl⟩⟩
      · rw [max_eq_left (not_lt.mp h)]
        exact ⟨le_refl m, fun hne => absurd rfl hne⟩
    · have e : (amd_readings [a]).foldl max m = m := by
        simp [amd_readings, hs]
      rw [e]
      exact ⟨le_refl m, fun hne => absurd rfl hne⟩
  · intro g h i m u
    rw [nvidia_gpu_loop_result, nvidia_gpu_loop_result, nvidia_readings_append, List.foldl_append]
    exact ⟨le_foldl_max _ m, le_foldl_max _ _⟩
  · intro g h c m u
    refine ⟨_, _, amd_adapter_loop_resolved g c m u, amd_adapter_loop_resolved (g ++ h) c m u,
      le_foldl_max _ m, ?_⟩
    show (amd_readings g).foldl max m ≤ (amd_readings (g ++ h)).foldl max m
    rw [amd_readings_append, List.foldl_append]
    exact le_foldl_max _ _
  · intro r hr
    exact amd_result_nonneg amd w r hr
  · constructor
    · rintro ⟨r, hr⟩
      cases hres : amd.calls_resolve with
      | true => rfl
      | false => rw [amd_run_unresolved amd w hres] at hr; cases hr
    · intro hres
      obtain ⟨u, hu, _⟩ := amd_run_returns amd w hres
      exact ⟨_, hu⟩
  · intro hinit henum t ht
    rw [nvidia_result_ok nv w hinit henum]
    exact mem_le_foldl_max _ 0 t ht
  · intro hload hcreate henum hres
    refine ⟨_, amd_run_ok amd w hload hcreate henum hres, ?_⟩
    intro t ht
    exact mem_le_foldl_max _ 0 t ht

/-- C10 on the two scenarios of the spec: the readings 50, 72, 68 and 58, 61 are all
at most the returned values 72 and 61. -/
theorem running_maximum_invariant_witness :
    (nvidia_readings nvidia_two_adapters.gpus = [50, 72, 68]
      ∧ ∀ t ∈ nvidia_readings nvidia_two_adapters.gpus,
          t ≤ (get_temperature_for_nvidia nvidia_two_adapters zeroed_world).1)
    ∧ (amd_readings amd_three_adapters.adapters = [58, 61]
      ∧ amd_three_adapters.calls_resolve = true
      ∧ ∃ r, get_temperature_for_amd amd_three_adapters zeroed_world = some r
          ∧ ∀ t ∈ amd_readings amd_three_adapters.adapters, t ≤ r.1) :=
  ⟨⟨by decide, (running_maximum_invariant nvidia_two_adapters amd_three_adapters
      zeroed_world).2.2.2.2.2.2.2.2.2.1 rfl rfl⟩,
   ⟨by decide, rfl, (running_maximum_invariant nvidia_two_adapters amd_three_adapters
      zeroed_world).2.2.2.2.2.2.2.2.2.2 rfl rfl rfl rfl⟩⟩

/-! ## The claims on the order of vendor calls -/

theorem get_nvapi_status_string_calls (v : NvVendor) (s : Int) (w : World) :
    (get_nvapi_status_string v s w).2.calls = w.calls ++ [Call.NvAPI_GetErrorMessage s] := rfl

theorem get_nvapi_status_string_out (v : NvVendor) (s : Int) (w : World) :
    (get_nvapi_status_string v s w).2.out = w.out := rfl

theorem unload_not_mem_while_initialised (v : NvVendor) :
    Call.NvAPI_Unload ∉ nvidia_calls_while_initialised v := by
  unfold nvidia_calls_while_initialised
  by_cases h : v.enum_status = NVAPI_OK
  · simp [h]
  · simp [h]

/-- C4 (amended): when the module loads and `ADL2_Main_Control_Create` returns a status
other than `ADL_OK` (the entry points the run calls having been resolved),
`get_temperature_for_amd` returns 0 and makes exactly these calls: the load, the three
`GetProcAddress` lookups, the creation, then `ADL2_Main_Control_Destroy` once, on the
value `adl_context` holds after the failed creation, and `FreeLibrary` once, as the
last call. -/
theorem amd_create_failure_teardown (v : AdlVendor) (w : World)
    (hload : v.library_loaded = true) (hcreate : v.create_status ≠ ADL_OK)
    (hres : v.calls_resolve = true) :
    ∃ r, get_temperature_for_amd v w = some r
    ∧ r.1 = 0
    ∧ ∃ run, r.2.calls = w.calls ++ run
      ∧ run = [Call.LoadLibraryA, Call.GetProcAddress AdlProc.ADL2_Main_Control_Create,
          Call.GetProcAddress AdlProc.ADL2_Main_Control_Destroy,
          Call.GetProcAddress AdlProc.ADL2_Main_Control_GetProcAddress,
          Call.ADL2_Main_Control_Create,
          Call.ADL2_Main_Control_Destroy v.context, Call.FreeLibrary]
      ∧ run.count Call.FreeLibrary = 1
      ∧ run.count (Call.ADL2_Main_Control_Destroy v.context) = 1
      ∧ run.getLast? = some Call.FreeLibrary := by
  refine ⟨_, amd_run_create_fails v w hload hcreate hres, rfl, _, rfl, rfl, ?_, ?_, ?_⟩
  · simp [List.count_cons]
  · simp [List.count_cons]
  · simp

/-- C4 on a concrete run: creation fails with -1 and leaves the context at 0. -/
theorem amd_create_failure_teardown_witness :
    amd_create_fails.library_loaded = true ∧ amd_create_fails.create_status ≠ ADL_OK
    ∧ amd_create_fails.calls_resolve = true
    ∧ (get_temperature_for_amd amd_create_fails zeroed_world).map Prod.fst = some 0 := by
  obtain ⟨r, hr, hval, _⟩ :=
    amd_create_failure_teardown amd_create_fails zeroed_world rfl (by decide) rfl
  refine ⟨rfl, by decide, rfl, ?_⟩
  rw [hr, Option.map_some', hval]

/-- C4 as stated fails: in a run where the module loads and the creation fails, the
context-destroy entry point is called on the context that was not created. -/
theorem amd_destroy_after_failed_create_counterexample :
    amd_create_fails.library_loaded = true ∧ amd_create_fails.create_status ≠ ADL_OK
    ∧ ∃ r, get_temperature_for_amd amd_create_fails zeroed_world = some r
      ∧ Call.ADL2_Main_Control_Destroy amd_create_fails.context ∈ r.2.calls := by
  refine ⟨rfl, by decide, _, amd_run_create_fails amd_create_fails zeroed_world rfl (by decide) rfl,
    ?_⟩
  decide

/-- C5: when `NvAPI_Initialize` succeeds, the calls of `get_temperature_for_nvidia` are
the initialisation, the enumeration, then either one thermal query per enumerated
adapter or (enumeration failed) the error-message lookup, then `NvAPI_Unload`, which
so occurs exactly once and is the last call; when `NvAPI_Initialize` fails, the result
is 0 and the only call besides it is the error-message lookup for the diagnostic:
no enumeration, no thermal query, no `NvAPI_Unload`. -/
theorem nvidia_unload_once_and_last (v : NvVendor) (w : World) :
    (v.init_status = NVAPI_OK →
      ∃ run, (get_temperature_for_nvidia v w).2.calls = w.calls ++ run
        ∧ run = Call.NvAPI_Initialize :: (nvidia_calls_while_initialised v ++ [Call.NvAPI_Unload])
        ∧ run.count Call.NvAPI_Unload = 1
        ∧ run.getLast? = some Call.NvAPI_Unload)
    ∧ (v.init_status ≠ NVAPI_OK →
      (get_temperature_for_nvidia v w).1 = 0
      ∧ ∃ run, (get_temperature_for_nvidia v w).2.calls = w.calls ++ run
        ∧ run = [Call.NvAPI_Initialize, Call.NvAPI_GetErrorMessage v.init_status]
        ∧ Call.NvAPI_Unload ∉ run
        ∧ Call.NvAPI_EnumPhysicalGPUs ∉ run
        ∧ ∀ i, Call.NvAPI_GPU_GetThermalSettings i ∉ run) := by
  constructor
  · intro hinit
    refine ⟨_, ?_, rfl, ?_, ?_⟩
    · by_cases henum : v.enum_status = NVAPI_OK
      · simp [get_temperature_for_nvidia, hinit, henum, nvidia_gpu_loop_world, World.call,
          nvidia_calls_while_initialised]
      · simp [get_temperature_for_nvidia, hinit, henum, World.call, World.printf,
          get_nvapi_status_string_calls, nvidia_calls_while_initialised]
    · rw [List.count_cons, List.count_append,
        List.count_eq_zero_of_not_mem (unload_not_mem_while_initialised v)]
      simp
    · rw [← List.cons_append, List.getLast?_append]
      rfl
  · intro hinit
    refine ⟨by simp [get_temperature_for_nvidia, hinit], _, ?_, rfl, ?_, ?_, ?_⟩
    · simp [get_temperature_for_nvidia, hinit, World.call, World.printf,
        get_nvapi_status_string_calls]
    · simp
    · simp
    · simp

/-- C5 on two concrete runs: enumeration fails after a successful initialisation
(`NvAPI_Unload` is still the last call), and initialisation fails (result 0). -/
theorem nvidia_unload_once_and_last_witness :
    (nvidia_enum_fails.init_status = NVAPI_OK
      ∧ ∃ run, (get_temperature_for_nvidia nvidia_enum_fails zeroed_world).2.calls
          = zeroed_world.calls ++ run
        ∧ run = Call.NvAPI_Initialize :: (nvidia_calls_while_initialised nvidia_enum_fails
            ++ [Call.NvAPI_Unload])
        ∧ run.count Call.NvAPI_Unload = 1
        ∧ run.getLast? = some Call.NvAPI_Unload)
    ∧ (nvidia_init_fails.init_status ≠ NVAPI_OK
      ∧ (get_temperature_for_nvidia nvidia_init_fails zeroed_world).1 = 0) :=
  ⟨⟨rfl, (nvidia_unload_once_and_last nvidia_enum_fails zeroed_world).1 rfl⟩,
   ⟨by decide, ((nvidia_unload_once_and_last nvidia_init_fails zeroed_world).2 (by decide)).1⟩⟩

/-! ## The bump allocator -/

theorem wrap_int_of_fits (x : Int) (h1 : -2147483648 ≤ x) (h2 : x ≤ 2147483647) :
    wrap_int x = x := by
  unfold wrap_int
  omega

theorem requests_fit_tail (s : Int) (rest : List Int) (a : Arena)
    (h : requests_fit (s :: rest) a) :
    0 ≤ s ∧ 0 ≤ rest.sum ∧ wrap_int (a.global_memory_offset + s) = a.global_memory_offset + s
    ∧ requests_fit rest (allocate_memory s a).2 := by
  obtain ⟨hpos, hlo, hhi⟩ := h
  have hs : 0 ≤ s := hpos s (List.mem_cons_self s rest)
  have hrest : ∀ t ∈ rest, 0 ≤ t := fun t ht => hpos t (List.mem_cons_of_mem s ht)
  have hsum : 0 ≤ rest.sum := List.sum_nonneg hrest
  rw [List.sum_cons] at hhi
  have hw : wrap_int (a.global_memory_offset + s) = a.global_memory_offset + s :=
    wrap_int_of_fits _ (by omega) (by omega)
  refine ⟨hs, hsum, hw, hrest, ?_, ?_⟩
  · simp only [allocate_memory, hw]; omega
  · simp only [allocate_memory, hw]; omega

theorem allocate_sequence_arena (sizes : List Int) (a : Arena) (h : requests_fit sizes a) :
    (allocate_sequence sizes a).2 = ⟨a.global_memory, a.global_memory_offset + sizes.sum⟩ := by
  induction sizes generalizing a with
  | nil => simp [allocate_sequence]
  | cons s rest ih =>
    obtain ⟨_, _, hw, hfit⟩ := requests_fit_tail s rest a h
    simp only [allocate_sequence, ih _ hfit, List.sum_cons]
    simp only [allocate_memory, hw, add_assoc]

theorem allocate_sequence_later (sizes : List Int) (a : Arena) (h : requests_fit sizes a) :
    ∀ r ∈ (allocate_sequence sizes a).1,
      a.global_memory + a.global_memory_offset ≤ r.data
      ∧ a.global_memory_offset ≤ r.offset_after := by
  induction sizes generalizing a with
  | nil => intro r hr; simp [allocate_sequence] at hr
  | cons s rest ih =>
    obtain ⟨hs, _, hw, hfit⟩ := requests_fit_tail s rest a h
    intro r hr
    simp only [allocate_sequence, List.mem_cons] at hr
    rcases hr with rfl | hr
    · simp only [allocate_memory, hw]
      omega
    · have := ih _ hfit r hr
      simp only [allocate_memory, hw] at this
      omega

theorem allocate_sequence_ordered (sizes : List Int) (a : Arena) (h : requests_fit sizes a) :
    List.Pairwise (fun r s : Region => r.data + r.size ≤ s.data ∧ r.offset_after ≤ s.offset_after)
      (allocate_sequence sizes a).1 := by
  induction sizes generalizing a with
  | nil => simp [allocate_sequence]
  | cons s rest ih =>
    obtain ⟨hs, _, hw, hfit⟩ := requests_fit_tail s rest a h
    simp only [allocate_sequence, List.pairwise_cons]
    refine ⟨?_, ih _ hfit⟩
    intro r hr
    have := allocate_sequence_later rest _ hfit r hr
    simp only [allocate_memory, hw] at this ⊢
    omega

/-- C7 (amended): each call `allocate_memory(size)` returns `global_memory +
global_memory_offset` as it was before the call and leaves `global_memory` unchanged;
the offset becomes the old offset plus `size` whenever that sum is representable as an
`int`.  For every sequence of requests with non-negative sizes that keeps the offset
representable, the regions `[p_i, p_i + size_i)` of two different calls do not overlap
(a later region starts at or after the end of an earlier one), the offset never moves
back, and it ends at the start offset plus the sum of the sizes. -/
theorem allocate_memory_bump (a : Arena) (size : Int) (sizes : List Int) :
    (allocate_memory size a).1 = a.global_memory + a.global_memory_offset
    ∧ (allocate_memory size a).2.global_memory = a.global_memory
    ∧ (-2147483648 ≤ a.global_memory_offset + size → a.global_memory_offset + size ≤ 2147483647 →
        (allocate_memory size a).2.global_memory_offset = a.global_memory_offset + size)
    ∧ (requests_fit sizes a →
        List.Pairwise Region.disjoint (allocate_sequence sizes a).1
        ∧ List.Pairwise (fun r s : Region => r.data + r.size ≤ s.data) (allocate_sequence sizes a).1
        ∧ List.Pairwise (fun x y : Int => x ≤ y)
            (a.global_memory_offset :: (allocate_sequence sizes a).1.map (fun r => r.offset_after))
        ∧ (allocate_sequence sizes a).2
            = ⟨a.global_memory, a.global_memory_offset + sizes.sum⟩) := by
  refine ⟨rfl, rfl, fun h1 h2 => wrap_int_of_fits _ h1 h2, fun h => ⟨?_, ?_, ?_, ?_⟩⟩
  · refine (allocate_sequence_ordered sizes a h).imp ?_
    intro r s hrs x hx
    omega
  · exact (allocate_sequence_ordered sizes a h).imp (fun hrs => hrs.1)
  · rw [List.pairwise_cons]
    constructor
    · intro y hy
      obtain ⟨r, hr, rfl⟩ := List.mem_map.mp hy
      exact (allocate_sequence_later sizes a h r hr).2
    · rw [List.pairwise_map]
      exact (allocate_sequence_ordered sizes a h).imp (fun hrs => hrs.2)
  · exact allocate_sequence_arena sizes a h

/-- C7 on a concrete sequence: requests of 64, 0 and 16 bytes from an arena at 4096. -/
theorem allocate_memory_bump_witness :
    requests_fit [64, 0, 16] ⟨4096, 0⟩
    ∧ (allocate_sequence [64, 0, 16] ⟨4096, 0⟩).1 = [⟨4096, 64, 64⟩, ⟨4160, 0, 64⟩, ⟨4160, 16, 80⟩]
    ∧ List.Pairwise Region.disjoint (allocate_sequence [64, 0, 16] ⟨4096, 0⟩).1 :=
  have h : requests_fit [64, 0, 16] ⟨4096, 0⟩ := by
    refine ⟨?_, by decide, by decide⟩
    intro s hs
    simp only [List.mem_cons, List.mem_singleton, List.not_mem_nil, or_false] at hs
    omega
  ⟨h, by decide, ((allocate_memory_bump ⟨4096, 0⟩ 64 [64, 0, 16]).2.2.2 h).1⟩

/-- C7 as stated fails: `size` is an `int`; the requests 8, -8, 8 return the same
pointer for the first and the third call, whose regions [4096, 4104) coincide, and the
second call moves the offset back from 8 to 0. -/
theorem allocate_memory_negative_size_counterexample :
    (allocate_sequence [8, -8, 8] ⟨4096, 0⟩).1 = [⟨4096, 8, 8⟩, ⟨4104, -8, 0⟩, ⟨4096, 8, 8⟩]
    ∧ ¬ List.Pairwise Region.disjoint (allocate_sequence [8, -8, 8] ⟨4096, 0⟩).1
    ∧ ¬ List.Pairwise (fun x y : Int => x ≤ y)
        ((allocate_sequence [8, -8, 8] ⟨4096, 0⟩).1.map (fun r => r.offset_after)) := by
  have e : (allocate_sequence [8, -8, 8] ⟨4096, 0⟩).1
      = [⟨4096, 8, 8⟩, ⟨4104, -8, 0⟩, ⟨4096, 8, 8⟩] := by decide
  refine ⟨e, ?_, ?_⟩
  · rw [e]
    intro h
    have h13 : Region.disjoint ⟨4096, 8, 8⟩ ⟨4096, 8, 8⟩ :=
      (List.pairwise_cons.mp h).1 _ (List.mem_cons_of_mem _ (List.mem_singleton.mpr rfl))
    exact h13 4096 (by decide)
  · rw [e]
    decide

/-! ## The status translator and the diagnostics -/

theorem write_bytes_length (bytes heap : List Char) (i : Nat) :
    (write_bytes heap i bytes).length = heap.length := by
  induction bytes generalizing heap i with
  | nil => rfl
  | cons b bs ih => simp [write_bytes, ih]

theorem take_write_bytes (bytes heap : List Char) (i j : Nat) (h : j ≤ i) :
    (write_bytes heap i bytes).take j = heap.take j := by
  induction bytes generalizing heap i with
  | nil => rfl
  | cons b bs ih =>
    simp only [write_bytes]
    rw [ih _ (i + 1) (by omega)]
    rcases Nat.lt_or_ge j i with hlt | hge
    · exact List.take_set_of_lt b heap hlt
    · have hji : j = i := by omega
      subst hji
      rw [List.set_eq_take_append_cons_drop]
      split
      · rw [List.take_append_of_le_length (by rw [List.length_take]; omega), List.take_take,
          Nat.min_self]
      · rfl

theorem drop_write_bytes (bytes heap : List Char) (i : Nat) (h : i + bytes.length ≤ heap.length) :
    (write_bytes heap i bytes).drop i = bytes ++ heap.drop (i + bytes.length) := by
  induction bytes generalizing heap i with
  | nil => simp [write_bytes]
  | cons b bs ih =>
    simp only [List.length_cons] at h
    simp only [write_bytes, List.length_cons]
    have hlen : i < (write_bytes (heap.set i b) (i + 1) bs).length := by
      rw [write_bytes_length, List.length_set]; omega
    have hget : (write_bytes (heap.set i b) (i + 1) bs)[i] = b := by
      have h1 := take_write_bytes bs (heap.set i b) (i + 1) (i + 1) (le_refl _)
      have h2 := congrArg (fun l : List Char => l[i]?) h1
      simp only [List.getElem?_take, Nat.lt_succ_self, if_true] at h2
      rw [List.getElem?_set_self (by omega), List.getElem?_eq_getElem hlen] at h2
      exact Option.some.inj h2
    rw [List.drop_eq_getElem_cons hlen, hget, ih _ (i + 1) (by rw [List.length_set]; omega),
      List.drop_set_of_lt b heap (by omega)]
    simp [Nat.add_assoc, Nat.add_comm 1]

theorem digitChar_ne_NUL (d : Nat) : Nat.digitChar d ≠ NUL := by
  by_cases h : d < 16
  · interval_cases d <;> decide
  · unfold Nat.digitChar
    iterate 16
      rw [if_neg]
      swap
      · omega
    decide

theorem toDigitsCore_no_NUL (b fuel n : Nat) (ds : List Char) (h : ∀ c ∈ ds, c ≠ NUL) :
    ∀ c ∈ Nat.toDigitsCore b fuel n ds, c ≠ NUL := by
  induction fuel generalizing n ds with
  | zero => simpa [Nat.toDigitsCore] using h
  | succ fuel ih =>
    have hd : ∀ c ∈ Nat.digitChar (n % b) :: ds, c ≠ NUL := by
      intro c hc
      rcases List.mem_cons.mp hc with rfl | hc
      · exact digitChar_ne_NUL _
      · exact h c hc
    unfold Nat.toDigitsCore
    by_cases h0 : n / b = 0
    · simpa [h0] using hd
    · simp only [h0, if_false]
      exact ih (n / b) _ hd

theorem format_x_no_NUL (status : Int) : ∀ c ∈ format_x status, c ≠ NUL :=
  toDigitsCore_no_NUL 16 _ _ [] (fun c hc => absurd hc (List.not_mem_nil c))

theorem format_x_length (status : Int) : (format_x status).length ≤ 8 := by
  unfold format_x Nat.toDigits
  refine Nat.toDigitsCore_length 16 (by decide) _ _ 8 ?_ (by decide)
  have h : status % 4294967296 < 4294967296 := Int.emod_lt_of_pos _ (by decide)
  have h0 : 0 ≤ status % 4294967296 := Int.emod_nonneg _ (by decide)
  omega

theorem takeWhile_until_NUL (s rest : List Char) (h : ∀ c ∈ s, c ≠ NUL) :
    (s ++ NUL :: rest).takeWhile (fun c => c != NUL) = s := by
  rw [List.takeWhile_append_of_pos (fun c hc => by simpa using h c hc)]
  simp [List.takeWhile]

theorem status_string_buffer_eq (m : List Char) (h : m.length ≤ 63) :
    status_string_buffer m = m ++ NUL :: List.replicate (63 - m.length) NUL := by
  unfold status_string_buffer sizeof_NvAPI_ShortString
  have e : (64 : Int).toNat = 64 := rfl
  rw [e, List.take_append_eq_append_take, List.take_of_length_le (by omega),
    List.take_replicate, ← List.replicate_succ]
  congr 2
  omega

theorem strlen_status_string_buffer (m : List Char) (h : m.length ≤ 63) (hnul : ∀ c ∈ m, c ≠ NUL) :
    strlen (status_string_buffer m) = m.length
    ∧ (status_string_buffer m).take m.length = m := by
  rw [status_string_buffer_eq m h]
  constructor
  · unfold strlen
    rw [takeWhile_until_NUL m _ hnul]
  · exact List.take_left' rfl

theorem c_string_store (heap bytes : List Char) (base off : Int) (h0 : 0 ≤ off)
    (hroom : off.toNat + bytes.length ≤ heap.length) :
    c_string (store heap base (base + off) bytes) base (base + off)
      = (bytes ++ heap.drop (off.toNat + bytes.length)).takeWhile (fun c => c != NUL) := by
  have hp : ¬ base + off < base := by omega
  have hi : (base + off - base).toNat = off.toNat := by
    congr 1
    omega
  simp only [c_string, store, if_neg hp, hi]
  rw [drop_write_bytes bytes heap off.toNat hroom]

/-- What `get_nvapi_status_string` returns, for an arena with room for the 64 bytes:
the pointer is `global_memory + global_memory_offset`, the offset advances by 64, and
the string read through the pointer is "0x" and the hexadecimal status when the vendor
has no message, and otherwise the vendor's message followed by the bytes the arena
already held after it, up to the first zero byte. -/
theorem get_nvapi_status_string_text (v : NvVendor) (status : Int) (w : World)
    (h0 : 0 ≤ w.arena.global_memory_offset)
    (hroom : w.arena.global_memory_offset.toNat + 64 ≤ w.heap.length)
    (hint : w.arena.global_memory_offset + 64 ≤ 2147483647)
    (hlen : (v.error_message status).length ≤ 63)
    (hnul : ∀ c ∈ v.error_message status, c ≠ NUL) :
    (get_nvapi_status_string v status w).1
        = w.arena.global_memory + w.arena.global_memory_offset
    ∧ (get_nvapi_status_string v status w).2.arena
        = ⟨w.arena.global_memory, w.arena.global_memory_offset + 64⟩
    ∧ (v.error_message status = [] →
        nvapi_status_text v status w = '0' :: 'x' :: format_x status)
    ∧ (v.error_message status ≠ [] →
        nvapi_status_text v status w = v.error_message status
          ++ (w.heap.drop (w.arena.global_memory_offset.toNat
                + (v.error_message status).length)).takeWhile (fun c => c != NUL)) := by
  obtain ⟨hstrlen, htake⟩ := strlen_status_string_buffer _ hlen hnul
  refine ⟨rfl, ?_, ?_, ?_⟩
  · simp only [get_nvapi_status_string, allocate_memory, World.call, sizeof_NvAPI_ShortString]
    rw [wrap_int_of_fits _ (by omega) hint]
  · intro hm
    have hx := format_x_length status
    have hs0 : strlen (status_string_buffer (v.error_message status)) = 0 := by
      rw [hstrlen, hm]
      rfl
    have hb : w.arena.global_memory_offset.toNat
        + ('0' :: 'x' :: format_x status ++ [NUL]).length ≤ w.heap.length := by
      simp only [List.length_cons, List.length_append, List.length_nil]
      omega
    simp only [nvapi_status_text, get_nvapi_status_string, allocate_memory, World.call, hs0,
      if_true]
    rw [c_string_store _ _ _ _ h0 hb]
    have e : ('0' :: 'x' :: format_x status ++ [NUL])
          ++ w.heap.drop (w.arena.global_memory_offset.toNat
              + ('0' :: 'x' :: format_x status ++ [NUL]).length)
        = ('0' :: 'x' :: format_x status) ++ NUL :: w.heap.drop
            (w.arena.global_memory_offset.toNat
              + ('0' :: 'x' :: format_x status ++ [NUL]).length) := by
      simp
    rw [e, takeWhile_until_NUL]
    intro c hc
    rcases List.mem_cons.mp hc with rfl | hc
    · decide
    · rcases List.mem_cons.mp hc with rfl | hc
      · decide
      · exact format_x_no_NUL status c hc
  · intro hm
    have hpos : (v.error_message status).length ≠ 0 := by
      intro h
      exact hm (List.length_eq_zero.mp h)
    simp only [nvapi_status_text, get_nvapi_status_string, allocate_memory, World.call, hstrlen,
      if_neg hpos, htake]
    rw [c_string_store _ _ _ _ h0 (by omega),
      List.takeWhile_append_of_pos (fun c hc => by simpa using hnul c hc)]

/-- C8, the code at the failing input: for status -1 with the vendor message
"NVAPI_ERROR" and an arena whose first 16 bytes are 'X', `get_nvapi_status_string`
returns the non-null pointer 4096 and advances the offset by 64, but the string read
through the pointer is "NVAPI_ERRORXXXXX": the copy carries no terminator, so the
bytes the arena held follow the message.  On a zeroed arena the same call yields
exactly "NVAPI_ERROR", and without a vendor message it yields "0xffffffff". -/
theorem get_nvapi_status_string_keeps_stale_bytes :
    (get_nvapi_status_string nvidia_init_fails_with_message (-1) stale_world).1 = 4096
    ∧ (get_nvapi_status_string nvidia_init_fails_with_message (-1) stale_world).2.arena
        = ⟨4096, 64⟩
    ∧ nvapi_status_text nvidia_init_fails_with_message (-1) stale_world
        = "NVAPI_ERRORXXXXX".toList
    ∧ nvapi_status_text nvidia_init_fails_with_message (-1) stale_world
        ≠ nvidia_init_fails_with_message.error_message (-1)
    ∧ nvapi_status_text nvidia_init_fails_with_message (-1) zeroed_world = "NVAPI_ERROR".toList
    ∧ nvapi_status_text nvidia_init_fails (-1) stale_world = "0xffffffff".toList := by
  refine ⟨by decide, by decide, by decide, by decide, by decide, by decide⟩

/-- C9 (amended): a failing call that ends a pipeline appends exactly one diagnostic
line naming the failing step.  For a failed `NvAPI_Initialize` or
`NvAPI_EnumPhysicalGPUs` the line contains the string `get_nvapi_status_string` returns
for the status; for a failed `ADL2_Main_Control_Create` it contains the status in
hexadecimal; for a failed module load and a failed AMD adapter enumeration it is a
fixed text.  When a pipeline reaches its adapter loop it appends nothing, whatever
the per-adapter queries return.  (The AMD lines are those of a run that returns: the
entry points it calls were resolved.) -/
theorem diagnostics_of_failures (nv : NvVendor) (amd : AdlVendor) (w : World) :
    (nv.init_status ≠ NVAPI_OK →
      (get_temperature_for_nvidia nv w).2.out = w.out ++
        ["\nFailed to initialise NvAPI with error ".toList
          ++ nvapi_status_text nv nv.init_status (w.call Call.NvAPI_Initialize) ++ ".".toList])
    ∧ (nv.init_status = NVAPI_OK → nv.enum_status ≠ NVAPI_OK →
      (get_temperature_for_nvidia nv w).2.out = w.out ++
        ["\nFailed to enumerate NVIDIA GPUs with error ".toList
          ++ nvapi_status_text nv nv.enum_status
              ((w.call Call.NvAPI_Initialize).call Call.NvAPI_EnumPhysicalGPUs) ++ ".".toList])
    ∧ (nv.init_status = NVAPI_OK → nv.enum_status = NVAPI_OK →
      (get_temperature_for_nvidia nv w).2.out = w.out)
    ∧ (amd.library_loaded = false →
      ∃ r, get_temperature_for_amd amd w = some r
        ∧ r.2.out = w.out ++ ["\nFailed to load ADL DLL.".toList])
    ∧ (amd.library_loaded = true → amd.create_status ≠ ADL_OK → amd.calls_resolve = true →
      ∃ r, get_temperature_for_amd amd w = some r
        ∧ r.2.out = w.out ++
          ["\nFailed to make an ADL context with status 0x".toList
            ++ format_x amd.create_status ++ ".".toList])
    ∧ (amd.library_loaded = true → amd.create_status = ADL_OK → amd.enum_status ≠ ADL_OK →
      amd.calls_resolve = true →
      ∃ r, get_temperature_for_amd amd w = some r
        ∧ r.2.out = w.out ++ ["\n Failed to enumerate AMD GPUs.".toList])
    ∧ (amd.library_loaded = true → amd.create_status = ADL_OK → amd.enum_status = ADL_OK →
      amd.calls_resolve = true →
      ∃ r, get_temperature_for_amd amd w = some r ∧ r.2.out = w.out) := by
  refine ⟨?_, ?_, ?_, ?_, ?_, ?_, ?_⟩
  · intro hinit
    simp [get_temperature_for_nvidia, hinit, World.printf, get_nvapi_status_string_out,
      nvapi_status_text, World.call]
  · intro hinit henum
    simp [get_temperature_for_nvidia, hinit, henum, World.printf, get_nvapi_status_string_out,
      nvapi_status_text, World.call]
  · intro hinit henum
    simp [get_temperature_for_nvidia, hinit, henum, nvidia_gpu_loop_world, World.call]
  · intro hload
    exact ⟨_, amd_run_load_fails amd w hload, rfl⟩
  · intro hload hcreate hres
    exact ⟨_, amd_run_create_fails amd w hload hcreate hres, rfl⟩
  · intro hload hcreate henum hres
    exact ⟨_, amd_run_enum_fails amd w hload hcreate henum hres, rfl⟩
  · intro hload hcreate henum hres
    exact ⟨_, amd_run_ok amd w hload hcreate henum hres, rfl⟩

/-- C9 on concrete runs: a failed initialisation without a vendor message prints the
line with the code in hexadecimal, a failed module load prints its fixed line. -/
theorem diagnostics_of_failures_witness :
    (nvidia_init_fails.init_status ≠ NVAPI_OK
      ∧ (get_temperature_for_nvidia nvidia_init_fails zeroed_world).2.out
          = ["\nFailed to initialise NvAPI with error 0xffffffff.".toList])
    ∧ (amd_load_fails.library_loaded = false
      ∧ ∃ r, get_temperature_for_amd amd_load_fails zeroed_world = some r
          ∧ r.2.out = zeroed_world.out ++ ["\nFailed to load ADL DLL.".toList]) :=
  ⟨⟨by decide,
    ((diagnostics_of_failures nvidia_init_fails amd_load_fails zeroed_world).1 (by decide)).trans
      (by decide)⟩,
   ⟨rfl, (diagnostics_of_failures nvidia_init_fails amd_load_fails zeroed_world).2.2.2.1 rfl⟩⟩

/-- C9 as stated fails: a thermal query that fails (NVIDIA) and a temperature query
that fails (AMD) are made and leave the output unchanged; and the line printed for a
failed AMD enumeration is the same for the statuses -1 and -2, it carries no code. -/
theorem silent_query_failure_counterexample :
    (nvidia_query_fails.gpus = [⟨-1, []⟩] ∧ (-1 : Int) ≠ NVAPI_OK
      ∧ Call.NvAPI_GPU_GetThermalSettings 0
          ∈ (get_temperature_for_nvidia nvidia_query_fails zeroed_world).2.calls
      ∧ (get_temperature_for_nvidia nvidia_query_fails zeroed_world).2.out = zeroed_world.out)
    ∧ (amd_query_fails.adapters = [⟨0, -1, 0⟩] ∧ (-1 : Int) ≠ ADL_OK
      ∧ ∃ r, get_temperature_for_amd amd_query_fails zeroed_world = some r
          ∧ Call.ADL2_Overdrive5_Temperature_Get 0 ∈ r.2.calls
          ∧ r.2.out = zeroed_world.out)
    ∧ (get_temperature_for_amd (amd_enum_fails (-1)) zeroed_world).map (fun r => r.2.out)
        = some ["\n Failed to enumerate AMD GPUs.".toList]
    ∧ (get_temperature_for_amd (amd_enum_fails (-2)) zeroed_world).map (fun r => r.2.out)
        = some ["\n Failed to enumerate AMD GPUs.".toList] := by
  refine ⟨⟨rfl, by decide, by decide, by decide⟩,
    ⟨rfl, by decide, _, amd_run_ok amd_query_fails zeroed_world rfl rfl rfl rfl, ?_, rfl⟩,
    by decide, by decide⟩
  decide

/-! ## The driver: isolation of the two pipelines -/

end GpuTemperature
